import Mathlib

/-!
Verification of the xlsx2sql conversion core.

Shallow embedding of the program's data model and operations:
* `src/parser/data_model.rs` — `SqlValue`, the cell coercion `From<&Data> for SqlValue`
  (including Excel serial-date decoding), `SheetData::get_columns`, `SheetData::get_data_rows`;
* `src/generator/sql_generator.rs` — `MySqlGenerator::generate`, `format_statement`,
  `format_sql_value`;
* `src/generator/formatter.rs` — `SqlFormatter::{format_identifier, escape_string,
  format_string_literal}`.

Modelling conventions:
* Rust `f64` cell payloads are modelled by `ℚ`.  All concrete serial values used in the
  theorems below (`44927.5`, `2^-17`, `-1.5`) and the arithmetic performed on them
  (`x - trunc x`, `* 86400.0`) are exactly representable / exact in IEEE `f64`, so the
  rational model agrees bit-for-bit with the Rust computation at every input a theorem
  evaluates.
* Rust machine-integer casts `as i64` / `as u32` on floats (truncation toward zero with
  saturation at the type bounds) are modelled explicitly by `i64SatTrunc` / `u32SatTrunc`.
* chrono's `NaiveDate` is modelled as a day number in the proleptic Gregorian calendar
  (days since 1970-01-01), with the documented ±262000-year validity range; chrono's
  checked additions become `Option`-returning functions.  `chrono::Duration::days`
  itself PANICS for day counts of magnitude above 106751991167 (`i64::MAX`
  milliseconds expressed in days): `SqlValue.fromData?` models the coercion with that
  panic made explicit as `none`, while the plain `SqlValue.fromData` is the coercion
  restricted to the panic-free region, and theorems about serial decoding are stated
  for serials of magnitude at most `10^11`, where the panic cannot fire.
* Rust `str::trim` (Unicode-whitespace trim at both ends) is modelled by `strTrim`
  over the underlying character list, with `rustIsWhitespace` enumerating the Unicode
  White_Space code points that Rust's `char::is_whitespace` recognises.
* Rust `str::replace("'", "''")` with a single-character pattern is modelled by the
  character-by-character map `escapeChars`.
-/

namespace Xlsx2Sql

/-- Rust `char::is_whitespace`: the Unicode White_Space property.  The code points
are U+0009..U+000D, U+0020, U+0085 (NEL), U+00A0 (no-break space), U+1680 (ogham
space mark), U+2000..U+200A (fixed-width spaces), U+2028 (line separator), U+2029
(paragraph separator), U+202F (narrow no-break space), U+205F (medium mathematical
space) and U+3000 (ideographic space). -/
def rustIsWhitespace (c : Char) : Bool :=
  c.toNat == 0x09 || c.toNat == 0x0A || c.toNat == 0x0B || c.toNat == 0x0C ||
  c.toNat == 0x0D || c.toNat == 0x20 || c.toNat == 0x85 || c.toNat == 0xA0 ||
  c.toNat == 0x1680 ||
  (decide (0x2000 ≤ c.toNat) && decide (c.toNat ≤ 0x200A)) ||
  c.toNat == 0x2028 || c.toNat == 0x2029 || c.toNat == 0x202F ||
  c.toNat == 0x205F || c.toNat == 0x3000

/-- Model of Rust `str::trim`: remove Unicode whitespace from both ends. -/
def strTrim (s : String) : String :=
  String.mk (((s.data.dropWhile rustIsWhitespace).reverse.dropWhile rustIsWhitespace).reverse)

/-- calamine's `CellErrorType` (external enum; payload of `Data::Error`). -/
inductive CellErrorType where
  | Div0
  | NA
  | Name
  | Null
  | Num
  | Ref
  | Value
  | GettingData
deriving DecidableEq, Repr

/-- Display strings of calamine's `CellErrorType`. -/
def cellErrorDisplay : CellErrorType → String
  | CellErrorType.Div0 => "#DIV/0!"
  | CellErrorType.NA => "#N/A"
  | CellErrorType.Name => "#NAME?"
  | CellErrorType.Null => "#NULL!"
  | CellErrorType.Num => "#NUM!"
  | CellErrorType.Ref => "#REF!"
  | CellErrorType.Value => "#VALUE!"
  | CellErrorType.GettingData => "#GETTING_DATA"

/-- calamine's `Data` (the external `RawCell` type consumed by the core).
`Float` and `DateTime` carry `f64` payloads, modelled by `ℚ`; `DateTime` holds the
spreadsheet serial value (`ExcelDateTime::as_f64`). -/
inductive Data where
  | Empty
  | String (s : String)
  | Float (f : ℚ)
  | Int (i : Int)
  | Bool (b : Bool)
  | DateTime (serial : ℚ)
  | Error (e : CellErrorType)
  | DateTimeIso (dt : String)
  | DurationIso (dur : String)
deriving DecidableEq, Repr

/-- The core's typed output domain (`SqlValue` in `data_model.rs`).
`Number` carries the `f64` payload, modelled by `ℚ`. -/
inductive SqlValue where
  | Text (s : String)
  | Number (f : ℚ)
  | Integer (i : Int)
  | Boolean (b : Bool)
  | DateTime (dt : String)
  | Null
deriving DecidableEq, Repr

/-- Digits of a terminating decimal: `digits` printed with a decimal point `k`
places from the right (zero-padding the integer part when needed). -/
def decimalDigits (digits k : Nat) : String :=
  let ds := (Nat.repr digits).data
  let ds := if ds.length < k + 1 then List.replicate (k + 1 - ds.length) '0' ++ ds else ds
  String.mk (ds.take (ds.length - k)) ++ "." ++ String.mk (ds.drop (ds.length - k))

/-- Decimal textual representation of a rational, modelling Rust's `f64` `Display`
(`f.to_string()`).  Every `f64` is a dyadic rational; on the decimals a spreadsheet
actually stores (reduced denominator dividing a power of ten) this prints the exact
terminating expansion, which is what Rust's shortest-round-trip display prints for the
corresponding double.  Integers print without a fractional part, as in Rust. -/
def decimalRepr (q : ℚ) : String :=
  match (List.range 77).find? (fun k => 10 ^ k % q.den == 0) with
  | some k =>
    if k = 0 then (if q.num < 0 then "-" else "") ++ Nat.repr q.num.natAbs
    else (if q.num < 0 then "-" else "") ++ decimalDigits (q.num.natAbs * 10 ^ k / q.den) k
  | none => (if q.num < 0 then "-" else "") ++ Nat.repr q.num.natAbs ++ "/" ++ Nat.repr q.den

/-- calamine's `Display` for `Data` (used by `get_columns` for non-text, non-empty
header cells via `format!("{}", other)`). -/
def dataDisplay : Data → String
  | Data.Empty => ""
  | Data.String s => s
  | Data.Float f => decimalRepr f
  | Data.Int i => Int.repr i
  | Data.Bool b => if b then "true" else "false"
  | Data.DateTime serial => decimalRepr serial
  | Data.Error e => cellErrorDisplay e
  | Data.DateTimeIso dt => dt
  | Data.DurationIso dur => dur

/-- Proleptic Gregorian day number (days since 1970-01-01) of a civil date
(Howard Hinnant's `days_from_civil`, the arithmetic underlying chrono's `NaiveDate`). -/
def daysFromCivil (y : Int) (m d : Nat) : Int :=
  let y' := if m ≤ 2 then y - 1 else y
  let era := Int.fdiv y' 400
  let yoe := (y' - era * 400).toNat
  let mp := if 2 < m then m - 3 else m + 9
  let doy := (153 * mp + 2) / 5 + d - 1
  let doe := yoe * 365 + yoe / 4 - yoe / 100 + doy
  era * 146097 + (doe : Int) - 719468

/-- Civil date of a proleptic Gregorian day number (Hinnant's `civil_from_days`). -/
def civilFromDays (z : Int) : Int × Nat × Nat :=
  let z' := z + 719468
  let era := Int.fdiv z' 146097
  let doe := (z' - era * 146097).toNat
  let yoe := (doe - doe / 1460 + doe / 36524 - doe / 146096) / 365
  let y := (yoe : Int) + era * 400
  let doy := doe - (365 * yoe + yoe / 4 - yoe / 100)
  let mp := (5 * doy + 2) / 153
  let d := doy - (153 * mp + 2) / 5 + 1
  let m := if mp < 10 then mp + 3 else mp - 9
  (if m ≤ 2 then y + 1 else y, m, d)

/-- Two-digit zero padding (chrono `%m %d %H %M %S`). -/
def pad2 (n : Nat) : String :=
  if n < 10 then "0" ++ Nat.repr n else Nat.repr n

/-- Four-digit zero padding. -/
def pad4 (n : Nat) : String :=
  if n < 10 then "000" ++ Nat.repr n
  else if n < 100 then "00" ++ Nat.repr n
  else if n < 1000 then "0" ++ Nat.repr n
  else Nat.repr n

/-- chrono `%Y`: the year zero-padded to four digits, with a leading minus sign for
negative years. -/
def yearRepr (y : Int) : String :=
  if y < 0 then "-" ++ pad4 y.natAbs else pad4 y.toNat

/-- chrono `format("%Y-%m-%d %H:%M:%S")` on the datetime given by a day number and a
seconds-of-day value. -/
def formatYmdHms (day : Int) (sod : Nat) : String :=
  yearRepr (civilFromDays day).1 ++ "-" ++ pad2 (civilFromDays day).2.1 ++ "-" ++
    pad2 (civilFromDays day).2.2 ++ " " ++ pad2 (sod / 3600) ++ ":" ++
    pad2 (sod % 3600 / 60) ++ ":" ++ pad2 (sod % 60)

/-- Day number of chrono's `NaiveDate::MIN` (year -262143), the lower end of the
documented ±262000-year validity range. -/
def minDay : Int := daysFromCivil (-262143) 1 1

/-- Day number of chrono's `NaiveDate::MAX` (year 262142). -/
def maxDay : Int := daysFromCivil 262142 12 31

/-- Day number of the Excel epoch `NaiveDate::from_ymd_opt(1899, 12, 30)`. -/
def excelEpochDay : Int := daysFromCivil 1899 12 30

/-- `excel_epoch.checked_add_signed(Duration::days(days))`: `none` when the resulting
date falls outside the `NaiveDate` range. -/
def excelDateOfDays (days : Int) : Option Int :=
  let z := excelEpochDay + days
  if minDay ≤ z ∧ z ≤ maxDay then some z else none

/-- `date.and_hms_opt(0, 0, 0)` followed by
`checked_add_signed(Duration::seconds(seconds))`: midnight of `day` plus `s` seconds,
`none` when the result leaves the `NaiveDateTime` range (`s` is nonnegative, so only
the upper bound can be exceeded). -/
def addSecondsToMidnight (day : Int) (s : Nat) : Option (Int × Nat) :=
  let d := day + (s / 86400 : Nat)
  if d ≤ maxDay then some (d, s % 86400) else none

/-- Truncation of a rational toward zero (the rounding used by Rust's float-to-integer
`as` casts). -/
def ratTrunc (q : ℚ) : Int :=
  if 0 ≤ q then ⌊q⌋ else -⌊-q⌋

/-- Rust `as i64` on an `f64`: truncation toward zero, saturating at the `i64` bounds. -/
def i64SatTrunc (q : ℚ) : Int :=
  if q ≤ -(2 ^ 63) then -(2 ^ 63)
  else if (2 ^ 63 : ℚ) ≤ q then 2 ^ 63 - 1
  else ratTrunc q

/-- Rust `as u32` on an `f64`: truncation toward zero, saturating at `0` and
`u32::MAX`. -/
def u32SatTrunc (q : ℚ) : Nat :=
  if q < 0 then 0
  else if (2 ^ 32 : ℚ) ≤ q then 2 ^ 32 - 1
  else (ratTrunc q).toNat

/-- The chrono pipeline shared by the `Data::DateTime` arm: add `days` to the Excel
epoch, add `seconds` to midnight, format as `%Y-%m-%d %H:%M:%S`; on any `None` fall
back to `SqlValue::Number(serial)`. -/
def excelBuild (serial : ℚ) (days : Int) (seconds : Nat) : SqlValue :=
  match excelDateOfDays days with
  | some date =>
    match addSecondsToMidnight date seconds with
    | some ds => SqlValue.DateTime (formatYmdHms ds.1 ds.2)
    | none => SqlValue.Number serial
  | none => SqlValue.Number serial

/-- The `Data::DateTime` arm of `From<&Data> for SqlValue` (`data_model.rs` lines
40-58): `let days = dt.as_f64() as i64; let seconds = ((dt.as_f64() - days as f64) *
86400.0) as u32;` followed by the checked chrono additions. -/
def excelSerialToSql (serial : ℚ) : SqlValue :=
  excelBuild serial (i64SatTrunc serial)
    (u32SatTrunc ((serial - (i64SatTrunc serial : ℚ)) * 86400))

/-- The cell coercion `From<&Data> for SqlValue` (`data_model.rs` lines 32-64). -/
def SqlValue.fromData : Data → SqlValue
  | Data.Empty => SqlValue.Null
  | Data.String s => SqlValue.Text s
  | Data.Float f => SqlValue.Number f
  | Data.Int i => SqlValue.Integer i
  | Data.Bool b => SqlValue.Boolean b
  | Data.DateTime dt => excelSerialToSql dt
  | Data.Error _ => SqlValue.Null
  | Data.DateTimeIso dt => SqlValue.DateTime dt
  | Data.DurationIso dur => SqlValue.Text dur

/-- The largest day count `chrono::Duration::days` accepts without panicking:
`i64::MAX` milliseconds expressed in whole days
(`9223372036854775807 / 1000 / 86400`); `Duration::MIN` is the negation of
`Duration::MAX`, so the bound is symmetric. -/
def durationDaysMax : Nat := 106751991167

/-- The cell coercion with `chrono::Duration::days`' panic made explicit: on a
`Data::DateTime` cell whose truncated day offset exceeds `durationDaysMax` in
magnitude, the Rust code panics inside `Duration::days` before any checked addition
runs, modelled here as `none`; everywhere else the coercion returns
`some (SqlValue.fromData d)`. -/
def SqlValue.fromData? : Data → Option SqlValue
  | Data.DateTime dt =>
    if (i64SatTrunc dt).natAbs ≤ durationDaysMax then some (excelSerialToSql dt)
    else none
  | d => some (SqlValue.fromData d)

/-- `ParseError` (`errors.rs`); the calamine payload is irrelevant to the core and
omitted. -/
inductive ParseError where
  | InvalidFormat
  | EmptySheet
  | MissingHeaders
  | CalamineError
deriving DecidableEq, Repr

/-- `GeneratorError` (`errors.rs`); `Parse` is the `#[from] ParseError` conversion
applied by the `?` operator in `generate`. -/
inductive GeneratorError where
  | NoData
  | Parse (e : ParseError)
deriving DecidableEq, Repr

/-- `SheetData` (`data_model.rs`): a sheet name plus the `Range<Data>` grid, modelled
as the list of its rows. -/
structure SheetData where
  name : String
  range : List (List Data)
deriving DecidableEq, Repr

/-- `WorkbookData` (`data_model.rs`). -/
structure WorkbookData where
  sheets : List SheetData
deriving DecidableEq, Repr

/-- `SqlStatement` (`data_model.rs`). -/
structure SqlStatement where
  table_name : String
  columns : List String
  values : List (List SqlValue)
deriving DecidableEq, Repr

/-- The header-cell stringification inside `get_columns`: text cells give their value,
empty cells the empty string, anything else its `Display` form. -/
def headerString : Data → String
  | Data.String s => s
  | Data.Empty => ""
  | other => dataDisplay other

/-- `SheetData::get_columns` (`data_model.rs` lines 68-87): first row of the grid
stringified per cell; `MissingHeaders` when every header trims to empty;
`EmptySheet` when the grid has no rows. -/
def SheetData.get_columns (sd : SheetData) : Except ParseError (List String) :=
  match sd.range with
  | [] => Except.error ParseError.EmptySheet
  | firstRow :: _ =>
    if (firstRow.map headerString).all (fun col => (strTrim col).isEmpty) then
      Except.error ParseError.MissingHeaders
    else Except.ok (firstRow.map headerString)

/-- `SheetData::get_data_rows` (`data_model.rs` lines 89-91): all rows except the
header row. -/
def SheetData.get_data_rows (sd : SheetData) : List (List Data) :=
  sd.range.drop 1

/-- The per-sheet row coercion in `generate`'s loop body:
`row.iter().map(SqlValue::from).collect()` over each data row. -/
def coercedRows (sheet : SheetData) : List (List SqlValue) :=
  (SheetData.get_data_rows sheet).map (fun row => row.map SqlValue.fromData)

/-- The sheet loop of `MySqlGenerator::generate` (`sql_generator.rs` lines 16-36):
propagate header errors, skip sheets with empty columns or no data rows, otherwise
push one statement; sheet order is preserved. -/
def generateSheets : List SheetData → Except GeneratorError (List SqlStatement)
  | [] => Except.ok []
  | sheet :: rest =>
    match SheetData.get_columns sheet with
    | Except.error e => Except.error (GeneratorError.Parse e)
    | Except.ok columns =>
      if columns.isEmpty then generateSheets rest
      else if (coercedRows sheet).isEmpty then generateSheets rest
      else
        match generateSheets rest with
        | Except.error e => Except.error e
        | Except.ok tail => Except.ok (⟨sheet.name, columns, coercedRows sheet⟩ :: tail)

/-- `MySqlGenerator::generate` (`sql_generator.rs` lines 13-43): run the sheet loop,
then fail with `NoData` when no statements were produced. -/
def generate (data : WorkbookData) : Except GeneratorError (List SqlStatement) :=
  match generateSheets data.sheets with
  | Except.error e => Except.error e
  | Except.ok statements =>
    if statements.isEmpty then Except.error GeneratorError.NoData
    else Except.ok statements

/-- `SqlFormatter::format_identifier` (`formatter.rs` lines 6-8). -/
def format_identifier (name : String) : String :=
  "`" ++ name ++ "`"

/-- Character-level form of `str::replace("'", "''")`: every single quote becomes two
single quotes (single-character pattern, so replacement is a per-character map). -/
def escapeChars : List Char → List Char
  | [] => []
  | c :: cs => if c = '\'' then '\'' :: '\'' :: escapeChars cs else c :: escapeChars cs

/-- `SqlFormatter::escape_string` (`formatter.rs` lines 10-12). -/
def escape_string (s : String) : String :=
  String.mk (escapeChars s.data)

/-- `SqlFormatter::format_string_literal` (`formatter.rs` lines 14-16). -/
def format_string_literal (s : String) : String :=
  "'" ++ escape_string s ++ "'"

/-- `MySqlGenerator::format_sql_value` (`sql_generator.rs` lines 73-82). -/
def format_sql_value : SqlValue → String
  | SqlValue.Null => "NULL"
  | SqlValue.Text s => format_string_literal s
  | SqlValue.Number f => decimalRepr f
  | SqlValue.Integer i => Int.repr i
  | SqlValue.Boolean b => if b then "1" else "0"
  | SqlValue.DateTime dt => "'" ++ dt ++ "'"

/-- `MySqlGenerator::format_statement` (`sql_generator.rs` lines 45-69). -/
def format_statement (statement : SqlStatement) : String :=
  "INSERT INTO " ++ format_identifier statement.table_name ++ " (" ++
    String.intercalate ", " (statement.columns.map (fun col => format_identifier col)) ++
    ") VALUES\n" ++
    String.intercalate ",\n" (statement.values.map (fun row =>
      "(" ++ String.intercalate "," (row.map (fun val => format_sql_value val)) ++ ")")) ++
    ";"

/-! ### Specification-side definitions

These follow the spec's words, for comparison with the source-derived definitions. -/

/-- Standard SQL unescaping on the character list: collapse each doubled single quote
back to one quote. -/
def unescapeChars : List Char → List Char
  | [] => []
  | [c] => [c]
  | c :: c2 :: cs =>
    if c = '\'' ∧ c2 = '\'' then '\'' :: unescapeChars cs
    else c :: unescapeChars (c2 :: cs)

/-- Standard SQL unescaping of a string (spec-side, claim C1). -/
def unescape (s : String) : String :=
  String.mk (unescapeChars s.data)

/-- Scanning left to right, every single quote is immediately paired with a second
one: the string contains no isolated single quote (spec-side, claim C1). -/
def quotesDoubled : List Char → Bool
  | [] => true
  | [c] => c != '\''
  | c :: c2 :: cs =>
    if c = '\'' then (if c2 = '\'' then quotesDoubled cs else false)
    else quotesDoubled (c2 :: cs)

/-- The serial-decoding recipe exactly as the spec states it (claim C3): day offset
`floor(serial)`, `seconds = round((serial - floor(serial)) * 86400)`, then the same
chrono pipeline. -/
def excelSerialToSqlSpec (serial : ℚ) : SqlValue :=
  excelBuild serial ⌊serial⌋ ((round ((serial - (⌊serial⌋ : ℚ)) * 86400)).toNat)

/-- The amended serial-decoding recipe (claim C3 corrected): the seconds-of-day value
is truncated toward zero, not rounded. -/
def excelSerialToSqlSpecTrunc (serial : ℚ) : SqlValue :=
  excelBuild serial ⌊serial⌋ ((ratTrunc ((serial - (⌊serial⌋ : ℚ)) * 86400)).toNat)

/-- The header list derived from a sheet's first row (spec-side, claim C6). -/
def derivedHeaders (sd : SheetData) : List String :=
  (sd.range.headD []).map headerString

/-- The statement a single sheet contributes, per the spec of the statement builder
(claim C7): one statement when at least one data row exists, none otherwise. -/
def claimStmt (sheet : SheetData) : Option SqlStatement :=
  match SheetData.get_columns sheet with
  | Except.ok cols =>
    if (coercedRows sheet).isEmpty then none
    else some ⟨sheet.name, cols, coercedRows sheet⟩
  | Except.error _ => none

/-- The statement rendering exactly as the spec states it (claim C8): backtick-quoted
table and columns, comma-space-joined column list, comma-joined tuples,
comma-newline-separated rows, semicolon terminator. -/
def specFormat (stmt : SqlStatement) : String :=
  "INSERT INTO " ++ ("`" ++ stmt.table_name ++ "`") ++ " (" ++
    String.intercalate ", " (stmt.columns.map (fun c => "`" ++ c ++ "`")) ++
    ") VALUES\n" ++
    String.intercalate ",\n" (stmt.values.map (fun row =>
      "(" ++ String.intercalate "," (row.map format_sql_value) ++ ")")) ++
    ";"

/-! ### Concrete sample data used by witnesses and end-to-end theorems -/

/-- The spec's end-to-end sheet: name `people`, header row `id`,`name`, two data
rows. -/
def sheetPeople : SheetData :=
  ⟨"people", [[Data.String "id", Data.String "name"],
              [Data.Int 1, Data.String "Ann"],
              [Data.Int 2, Data.String "Bea"]]⟩

/-- Workbook containing only `sheetPeople`. -/
def wbPeople : WorkbookData := ⟨[sheetPeople]⟩

/-- The statement `generate` builds from `wbPeople`. -/
def stmtPeople : SqlStatement :=
  ⟨"people", ["id", "name"],
   [[SqlValue.Integer 1, SqlValue.Text "Ann"],
    [SqlValue.Integer 2, SqlValue.Text "Bea"]]⟩

/-- A sheet whose first row is entirely blank although a data row follows. -/
def sheetBlank : SheetData :=
  ⟨"s", [[Data.Empty, Data.String "  "], [Data.Int 1]]⟩

/-! ### Helper lemmas -/

lemma escapeChars_ne_nil {l : List Char} (h : l ≠ []) : escapeChars l ≠ [] := by
  cases l with
  | nil => exact absurd rfl h
  | cons c cs =>
    simp only [escapeChars]
    split <;> simp

lemma unescapeChars_escapeChars (l : List Char) : unescapeChars (escapeChars l) = l := by
  induction l with
  | nil => rfl
  | cons c cs ih =>
    by_cases hc : c = '\''
    · subst hc
      simp only [escapeChars, if_pos rfl, unescapeChars]
      simp [ih]
    · simp only [escapeChars, if_neg hc]
      cases h : escapeChars cs with
      | nil =>
        have : cs = [] := by
          by_contra hne
          exact escapeChars_ne_nil hne h
        subst this
        simp [unescapeChars]
      | cons d ds =>
        rw [unescapeChars]
        rw [if_neg (by simp [hc])]
        rw [← h, ih]

lemma quotesDoubled_escapeChars (l : List Char) : quotesDoubled (escapeChars l) = true := by
  induction l with
  | nil => rfl
  | cons c cs ih =>
    by_cases hc : c = '\''
    · subst hc
      simp only [escapeChars, if_pos rfl, quotesDoubled]
      simp [ih]
    · simp only [escapeChars, if_neg hc]
      cases h : escapeChars cs with
      | nil => simp [quotesDoubled, hc]
      | cons d ds =>
        rw [quotesDoubled, if_neg hc, ← h, ih]

/-! ### Claim theorems -/

/-- C1: `escape_string` doubles every single quote — the result contains no isolated
single quote — and the standard SQL unescaping rule recovers the original string. -/
theorem escape_string_roundtrip (s : String) :
    quotesDoubled (escape_string s).data = true ∧ unescape (escape_string s) = s := by
  constructor
  · show quotesDoubled (escapeChars s.data) = true
    exact quotesDoubled_escapeChars s.data
  · show String.mk (unescapeChars (escapeChars s.data)) = s
    rw [unescapeChars_escapeChars]

/-- C2: `format_sql_value` is total over the six `SqlValue` variants and renders
`Null` as `NULL`, text as the quoted escaped literal (in particular the injection
probe `'; DROP TABLE users; --` is neutralised), numbers and integers decimally,
booleans as `1`/`0`, and datetimes quoted but not escaped. -/
theorem format_sql_value_spec :
    format_sql_value SqlValue.Null = "NULL" ∧
    (∀ s, format_sql_value (SqlValue.Text s) = "'" ++ escape_string s ++ "'") ∧
    format_sql_value (SqlValue.Text "'; DROP TABLE users; --") =
      "'''; DROP TABLE users; --'" ∧
    (∀ f, format_sql_value (SqlValue.Number f) = decimalRepr f) ∧
    (∀ i, format_sql_value (SqlValue.Integer i) = Int.repr i) ∧
    format_sql_value (SqlValue.Boolean true) = "1" ∧
    format_sql_value (SqlValue.Boolean false) = "0" ∧
    (∀ s, format_sql_value (SqlValue.DateTime s) = "'" ++ s ++ "'") :=
  ⟨rfl, fun _ => rfl, by decide, fun _ => rfl, fun _ => rfl, rfl, rfl, fun _ => rfl⟩

/-- C5 counterexample: the coercion is NOT total over the full `RawCell` domain.
At the datetime serial `2 * 10^11` the truncated day offset `2 * 10^11` exceeds
`chrono::Duration::days`' bound of 106751991167 days, so the Rust code panics inside
`Duration::days` (an `expect` on `try_days`) instead of returning any `SqlValue` —
modelled as `none`. -/
theorem coerce_totality_counterexample :
    SqlValue.fromData? (Data.DateTime (2 * 10 ^ 11 : ℚ)) = none := by
  have hd : i64SatTrunc (2 * 10 ^ 11 : ℚ) = 2 * 10 ^ 11 := by
    rw [i64SatTrunc, if_neg (by norm_num), if_neg (by norm_num), ratTrunc,
      if_pos (by norm_num)]
    norm_num
  rw [SqlValue.fromData?, hd, if_neg (by decide)]

/-- C5 (amended): the cell coercion maps every non-datetime-serial variant as
specified — empty and error cells to `Null`, text and durations verbatim to `Text`,
floats to `Number`, integers to `Integer`, booleans to `Boolean`, ISO datetimes
verbatim to `DateTime` — and never fails on any of those variants; on datetime
serials it never fails PROVIDED the truncated day offset is within
`chrono::Duration::days`' bound of 106751991167 days in magnitude (beyond that the
code panics, see the counterexample), and there it agrees with the total model
`SqlValue.fromData`. -/
theorem coerce_non_serial_spec :
    SqlValue.fromData? Data.Empty = some SqlValue.Null ∧
    (∀ s, SqlValue.fromData? (Data.String s) = some (SqlValue.Text s)) ∧
    (∀ f, SqlValue.fromData? (Data.Float f) = some (SqlValue.Number f)) ∧
    (∀ i, SqlValue.fromData? (Data.Int i) = some (SqlValue.Integer i)) ∧
    (∀ b, SqlValue.fromData? (Data.Bool b) = some (SqlValue.Boolean b)) ∧
    (∀ e, SqlValue.fromData? (Data.Error e) = some SqlValue.Null) ∧
    (∀ s, SqlValue.fromData? (Data.DateTimeIso s) = some (SqlValue.DateTime s)) ∧
    (∀ s, SqlValue.fromData? (Data.DurationIso s) = some (SqlValue.Text s)) ∧
    (∀ q, (i64SatTrunc q).natAbs ≤ durationDaysMax →
      SqlValue.fromData? (Data.DateTime q) = some (SqlValue.fromData (Data.DateTime q))) := by
  refine ⟨rfl, fun _ => rfl, fun _ => rfl, fun _ => rfl, fun _ => rfl, fun _ => rfl,
    fun _ => rfl, fun _ => rfl, fun q hq => ?_⟩
  rw [SqlValue.fromData?, if_pos hq]
  rfl

/-- C5 witness: the amended coercion theorem applied at the serial `44927.5`, whose
day offset 44927 is within the panic-free bound. -/
theorem coerce_non_serial_spec_witness :
    SqlValue.fromData? (Data.DateTime (89855 / 2 : ℚ)) =
      some (SqlValue.fromData (Data.DateTime (89855 / 2 : ℚ))) := by
  have hd : i64SatTrunc (89855 / 2 : ℚ) = 44927 := by
    rw [i64SatTrunc, if_neg (by norm_num), if_neg (by norm_num), ratTrunc,
      if_pos (by norm_num)]
    norm_num
  exact coerce_non_serial_spec.2.2.2.2.2.2.2.2 (89855 / 2 : ℚ) (by rw [hd]; decide)

/-- C3 counterexample: the code truncates where the spec's recipe rounds, and
truncates toward zero where the spec's recipe floors.  At serial `2^-17`
(exactly representable in `f64`, with `2^-17 * 86400 = 675/1024` also exact) the code
yields second `0` while the spec's `round` recipe yields second `1`; at serial `-1.5`
the code's `as i64`/`as u32` casts yield `1899-12-29 00:00:00` while the spec's
`floor`/`round` recipe yields `1899-12-28 12:00:00`. -/
theorem serial_decode_counterexample :
    SqlValue.fromData (Data.DateTime (1 / 131072 : ℚ)) =
      SqlValue.DateTime "1899-12-30 00:00:00" ∧
    excelSerialToSqlSpec (1 / 131072 : ℚ) = SqlValue.DateTime "1899-12-30 00:00:01" ∧
    SqlValue.fromData (Data.DateTime (1 / 131072 : ℚ)) ≠
      excelSerialToSqlSpec (1 / 131072 : ℚ) ∧
    SqlValue.fromData (Data.DateTime (-(3 / 2) : ℚ)) =
      SqlValue.DateTime "1899-12-29 00:00:00" ∧
    excelSerialToSqlSpec (-(3 / 2) : ℚ) = SqlValue.DateTime "1899-12-28 12:00:00" := by
  have hdA : i64SatTrunc (1 / 131072 : ℚ) = 0 := by
    rw [i64SatTrunc, if_neg (by norm_num), if_neg (by norm_num), ratTrunc,
      if_pos (by norm_num)]
    norm_num
  have hsA : u32SatTrunc (((1 / 131072 : ℚ) - ((0 : ℤ) : ℚ)) * 86400) = 0 := by
    rw [u32SatTrunc, if_neg (by norm_num), if_neg (by norm_num), ratTrunc,
      if_pos (by norm_num)]
    have h : ⌊((1 / 131072 : ℚ) - ((0 : ℤ) : ℚ)) * 86400⌋ = 0 := by norm_num
    rw [h]
    rfl
  have hA : SqlValue.fromData (Data.DateTime (1 / 131072 : ℚ)) =
      SqlValue.DateTime "1899-12-30 00:00:00" := by
    show excelBuild (1 / 131072 : ℚ) (i64SatTrunc (1 / 131072 : ℚ))
        (u32SatTrunc (((1 / 131072 : ℚ) - (i64SatTrunc (1 / 131072 : ℚ) : ℚ)) * 86400)) =
      SqlValue.DateTime "1899-12-30 00:00:00"
    rw [hdA, hsA]
    decide
  have hfB : ⌊(1 / 131072 : ℚ)⌋ = 0 := by norm_num
  have hrB : round (((1 / 131072 : ℚ) - ((0 : ℤ) : ℚ)) * 86400) = 1 := by
    rw [round_eq]
    norm_num
  have hB : excelSerialToSqlSpec (1 / 131072 : ℚ) =
      SqlValue.DateTime "1899-12-30 00:00:01" := by
    rw [excelSerialToSqlSpec, hfB, hrB]
    decide
  have hdC : i64SatTrunc (-(3 / 2) : ℚ) = -1 := by
    rw [i64SatTrunc, if_neg (by norm_num), if_neg (by norm_num), ratTrunc,
      if_neg (by norm_num)]
    norm_num
  have hsC : u32SatTrunc (((-(3 / 2) : ℚ) - ((-1 : ℤ) : ℚ)) * 86400) = 0 := by
    rw [u32SatTrunc, if_pos (by norm_num)]
  have hC : SqlValue.fromData (Data.DateTime (-(3 / 2) : ℚ)) =
      SqlValue.DateTime "1899-12-29 00:00:00" := by
    show excelBuild (-(3 / 2) : ℚ) (i64SatTrunc (-(3 / 2) : ℚ))
        (u32SatTrunc (((-(3 / 2) : ℚ) - (i64SatTrunc (-(3 / 2) : ℚ) : ℚ)) * 86400)) =
      SqlValue.DateTime "1899-12-29 00:00:00"
    rw [hdC, hsC]
    decide
  have hfD : ⌊(-(3 / 2) : ℚ)⌋ = -2 := by norm_num
  have hrD : round (((-(3 / 2) : ℚ) - ((-2 : ℤ) : ℚ)) * 86400) = 43200 := by
    rw [round_eq]
    norm_num
  have hD : excelSerialToSqlSpec (-(3 / 2) : ℚ) =
      SqlValue.DateTime "1899-12-28 12:00:00" := by
    rw [excelSerialToSqlSpec, hfD, hrD]
    decide
  refine ⟨hA, hB, ?_, hC, hD⟩
  rw [hA, hB]
  decide

/-- C3 (amended): for nonnegative serials up to `10^11` (the region where chrono's
`Duration::days` cannot panic and the day offset is not saturated), the coercion
produces exactly the spec's recipe with the seconds-of-day value TRUNCATED toward
zero instead of rounded: day offset `floor(serial)` (= truncation, as the serial is
nonnegative), `seconds = trunc((serial - floor(serial)) * 86400)`, the day offset
added to the epoch 1899-12-30, the seconds added to midnight, formatted
`YYYY-MM-DD HH:MM:SS`, with fallback `Number(serial)` whenever a checked date
addition overflows the supported calendar range. -/
theorem serial_decode_amended (q : ℚ) (h0 : 0 ≤ q) (h1 : q ≤ 10 ^ 11) :
    SqlValue.fromData (Data.DateTime q) = excelSerialToSqlSpecTrunc q := by
  have hdays : i64SatTrunc q = ⌊q⌋ := by
    rw [i64SatTrunc,
      if_neg (by
        intro hc
        have h : (0 : ℚ) < 2 ^ 63 := by norm_num
        linarith),
      if_neg (by
        intro hc
        have h : (10 ^ 11 : ℚ) < 2 ^ 63 := by norm_num
        linarith),
      ratTrunc, if_pos h0]
  have hfr0 : (0 : ℚ) ≤ (q - (⌊q⌋ : ℚ)) * 86400 := by
    have h2 := Int.floor_le q
    have h3 : (0 : ℚ) ≤ q - ⌊q⌋ := by linarith
    exact mul_nonneg h3 (by norm_num)
  have hfr1 : (q - (⌊q⌋ : ℚ)) * 86400 < 2 ^ 32 := by
    have h2 := Int.lt_floor_add_one q
    have h3 : q - (⌊q⌋ : ℚ) < 1 := by linarith
    have h4 : (q - (⌊q⌋ : ℚ)) * 86400 < 1 * 86400 :=
      mul_lt_mul_of_pos_right h3 (by norm_num)
    have h5 : (1 : ℚ) * 86400 < 2 ^ 32 := by norm_num
    linarith
  have hsec : u32SatTrunc ((q - (⌊q⌋ : ℚ)) * 86400) =
      (ratTrunc ((q - (⌊q⌋ : ℚ)) * 86400)).toNat := by
    rw [u32SatTrunc, if_neg (not_lt.mpr hfr0), if_neg (not_le.mpr hfr1)]
  show excelBuild q (i64SatTrunc q)
      (u32SatTrunc ((q - (i64SatTrunc q : ℚ)) * 86400)) = excelSerialToSqlSpecTrunc q
  rw [hdays, hsec, excelSerialToSqlSpecTrunc]

/-- C3 witness: the amended theorem applied at the concrete serial `44927.5`. -/
theorem serial_decode_amended_witness :
    SqlValue.fromData (Data.DateTime (89855 / 2 : ℚ)) =
      excelSerialToSqlSpecTrunc (89855 / 2 : ℚ) :=
  serial_decode_amended (89855 / 2 : ℚ) (by norm_num) (by norm_num)

/-- C4: the spreadsheet serial `44927.5` decodes to `2023-01-01 12:00:00`
(44927 days after the epoch 1899-12-30 is 2023-01-01, and half a day is 12:00:00). -/
theorem serial_44927_5_decodes :
    SqlValue.fromData (Data.DateTime (89855 / 2 : ℚ)) =
      SqlValue.DateTime "2023-01-01 12:00:00" := by
  have hdays : i64SatTrunc (89855 / 2 : ℚ) = 44927 := by
    rw [i64SatTrunc, if_neg (by norm_num), if_neg (by norm_num), ratTrunc,
      if_pos (by norm_num)]
    norm_num
  have hsec : u32SatTrunc (((89855 / 2 : ℚ) - ((44927 : ℤ) : ℚ)) * 86400) = 43200 := by
    rw [u32SatTrunc, if_neg (by norm_num), if_neg (by norm_num), ratTrunc,
      if_pos (by norm_num)]
    have h : ⌊((89855 / 2 : ℚ) - ((44927 : ℤ) : ℚ)) * 86400⌋ = 43200 := by norm_num
    rw [h]
    rfl
  show excelBuild (89855 / 2 : ℚ) (i64SatTrunc (89855 / 2 : ℚ))
      (u32SatTrunc (((89855 / 2 : ℚ) - (i64SatTrunc (89855 / 2 : ℚ) : ℚ)) * 86400)) =
    SqlValue.DateTime "2023-01-01 12:00:00"
  rw [hdays, hsec]
  decide

lemma get_columns_ok_shape {sd : SheetData} {cols : List String}
    (h : SheetData.get_columns sd = Except.ok cols) :
    ∃ r0 rest, sd.range = r0 :: rest ∧ cols = r0.map headerString ∧ cols ≠ [] := by
  obtain ⟨name, range⟩ := sd
  cases range with
  | nil => simp [SheetData.get_columns] at h
  | cons r rest =>
    have hg : SheetData.get_columns ⟨name, r :: rest⟩ =
        if (r.map headerString).all (fun col => (strTrim col).isEmpty) then
          Except.error ParseError.MissingHeaders
        else Except.ok (r.map headerString) := rfl
    rw [hg] at h
    by_cases hall : ((r.map headerString).all fun col => (strTrim col).isEmpty) = true
    · rw [if_pos hall] at h
      simp at h
    · rw [if_neg hall] at h
      have hcols : cols = r.map headerString := (Except.ok.inj h).symm
      refine ⟨r, rest, rfl, hcols, ?_⟩
      intro hnil
      apply hall
      rw [hcols] at hnil
      simp [hnil]

lemma generateSheets_all_ok {l : List SheetData}
    (h : ∀ s ∈ l, ∃ c, SheetData.get_columns s = Except.ok c) :
    generateSheets l = Except.ok (l.filterMap claimStmt) := by
  revert h
  induction l with
  | nil => intro _; rfl
  | cons sheet rest ih =>
    intro h
    obtain ⟨cols, hc⟩ := h sheet (List.mem_cons_self sheet rest)
    obtain ⟨r0, rest0, hrange, hcols, hne⟩ := get_columns_ok_shape hc
    have hrec := ih (fun s hs => h s (List.mem_cons_of_mem _ hs))
    have hce : cols.isEmpty = false := by
      cases cols with
      | nil => exact absurd rfl hne
      | cons a as => rfl
    by_cases hv : (coercedRows sheet).isEmpty = true
    · have hclaim : claimStmt sheet = none := by
        simp [claimStmt, hc, hv]
      simp [generateSheets, hc, hce, hv, hrec, List.filterMap_cons, hclaim]
    · have hclaim : claimStmt sheet = some ⟨sheet.name, cols, coercedRows sheet⟩ := by
        simp [claimStmt, hc, hv]
      simp [generateSheets, hc, hce, hv, hrec, List.filterMap_cons, hclaim]

lemma generateSheets_error_of_prefix (pre : List SheetData) (s : SheetData)
    (post : List SheetData) (e : ParseError)
    (hpre : ∀ t ∈ pre, ∃ c, SheetData.get_columns t = Except.ok c)
    (hs : SheetData.get_columns s = Except.error e) :
    generateSheets (pre ++ s :: post) = Except.error (GeneratorError.Parse e) := by
  revert hpre
  induction pre with
  | nil =>
    intro _
    simp only [List.nil_append, generateSheets, hs]
  | cons t pre' ih =>
    intro hpre
    obtain ⟨c, hc⟩ := hpre t (List.mem_cons_self t pre')
    obtain ⟨r0, rest0, hrange, hcols, hne⟩ := get_columns_ok_shape hc
    have hce : c.isEmpty = false := by
      cases c with
      | nil => exact absurd rfl hne
      | cons a as => rfl
    have hrec := ih (fun t' ht' => hpre t' (List.mem_cons_of_mem _ ht'))
    by_cases hv : (coercedRows t).isEmpty = true
    · simp [generateSheets, hc, hce, hv, hrec]
    · simp [generateSheets, hc, hce, hv, hrec]

lemma generateSheets_ok_mem (l : List SheetData) (stmts : List SqlStatement)
    (h : generateSheets l = Except.ok stmts) :
    ∀ stmt ∈ stmts,
      ∃ sheet, sheet ∈ l ∧ ∃ cols, SheetData.get_columns sheet = Except.ok cols ∧
        stmt = ⟨sheet.name, cols, coercedRows sheet⟩ ∧ coercedRows sheet ≠ [] := by
  revert stmts
  induction l with
  | nil =>
    intro stmts h stmt hstmt
    simp only [generateSheets, Except.ok.injEq] at h
    subst h
    simp at hstmt
  | cons sheet rest ih =>
    intro stmts h stmt hstmt
    cases hc : SheetData.get_columns sheet with
    | error e => simp [generateSheets, hc] at h
    | ok cols =>
      simp only [generateSheets, hc] at h
      by_cases hcole : cols.isEmpty = true
      · simp only [hcole, if_true] at h
        obtain ⟨sheet', hmem, rest'⟩ := ih stmts h stmt hstmt
        exact ⟨sheet', List.mem_cons_of_mem _ hmem, rest'⟩
      · by_cases hv : (coercedRows sheet).isEmpty = true
        · simp only [hcole, hv, if_false, if_true, Bool.false_eq_true] at h
          obtain ⟨sheet', hmem, rest'⟩ := ih stmts h stmt hstmt
          exact ⟨sheet', List.mem_cons_of_mem _ hmem, rest'⟩
        · simp only [hcole, hv, if_false, Bool.false_eq_true] at h
          cases hg : generateSheets rest with
          | error e2 => rw [hg] at h; simp at h
          | ok tail =>
            rw [hg] at h
            simp only [Except.ok.injEq] at h
            subst h
            rcases List.mem_cons.mp hstmt with heq | htail
            · refine ⟨sheet, List.mem_cons_self sheet rest, cols, hc, heq, ?_⟩
              intro hnil
              rw [hnil] at hv
              exact hv rfl
            · obtain ⟨sheet', hmem, rest'⟩ := ih tail hg stmt htail
              exact ⟨sheet', List.mem_cons_of_mem _ hmem, rest'⟩

/-- C6: `get_columns` fails with `EmptySheet` exactly when the grid has no rows;
fails with `MissingHeaders` exactly when the grid is non-empty and every header
derived from the first row is empty or whitespace-only (regardless of data rows
below, and vacuously for a zero-cell first row); and otherwise succeeds with exactly
the derived header list.  Text cells contribute their value and empty cells the
empty string to the derived headers. -/
theorem get_columns_spec (sd : SheetData) :
    (SheetData.get_columns sd = Except.error ParseError.EmptySheet ↔ sd.range = []) ∧
    (SheetData.get_columns sd = Except.error ParseError.MissingHeaders ↔
      sd.range ≠ [] ∧ ∀ hdr ∈ derivedHeaders sd, (strTrim hdr).isEmpty = true) ∧
    (∀ cols, SheetData.get_columns sd = Except.ok cols ↔
      sd.range ≠ [] ∧ cols = derivedHeaders sd ∧
        ∃ hdr ∈ derivedHeaders sd, (strTrim hdr).isEmpty = false) ∧
    (∀ s, headerString (Data.String s) = s) ∧ headerString Data.Empty = "" := by
  obtain ⟨name, range⟩ := sd
  cases range with
  | nil =>
    refine ⟨by simp [SheetData.get_columns], ?_, ?_, fun _ => rfl, rfl⟩
    · constructor
      · intro h
        simp [SheetData.get_columns] at h
      · rintro ⟨hne, -⟩
        exact absurd rfl hne
    · intro cols
      constructor
      · intro h
        simp [SheetData.get_columns] at h
      · rintro ⟨hne, -⟩
        exact absurd rfl hne
  | cons r rest =>
    have hg : SheetData.get_columns ⟨name, r :: rest⟩ =
        if (r.map headerString).all (fun col => (strTrim col).isEmpty) then
          Except.error ParseError.MissingHeaders
        else Except.ok (r.map headerString) := rfl
    have hder : derivedHeaders ⟨name, r :: rest⟩ = r.map headerString := rfl
    by_cases hall : ((r.map headerString).all fun col => (strTrim col).isEmpty) = true
    · refine ⟨?_, ?_, ?_, fun _ => rfl, rfl⟩
      · rw [hg, if_pos hall]
        simp
      · rw [hg, if_pos hall, hder]
        constructor
        · intro _
          exact ⟨by simp, List.all_eq_true.mp hall⟩
        · intro _
          rfl
      · intro cols
        rw [hg, if_pos hall, hder]
        constructor
        · intro hcontra
          simp at hcontra
        · rintro ⟨-, -, x, hx, hfalse⟩
          have hx2 := List.all_eq_true.mp hall x hx
          rw [hx2] at hfalse
          simp at hfalse
    · refine ⟨?_, ?_, ?_, fun _ => rfl, rfl⟩
      · rw [hg, if_neg hall]
        simp
      · rw [hg, if_neg hall, hder]
        constructor
        · intro hcontra
          simp at hcontra
        · rintro ⟨-, hforall⟩
          exact absurd (List.all_eq_true.mpr hforall) hall
      · intro cols
        rw [hg, if_neg hall, hder]
        have hex : ∃ x ∈ r.map headerString, (strTrim x).isEmpty = false := by
          simpa using hall
        constructor
        · intro h
          exact ⟨by simp, (Except.ok.inj h).symm, hex⟩
        · rintro ⟨-, hcols, -⟩
          rw [hcols]

/-- C6 witness: a sheet whose first row is entirely blank yields `MissingHeaders`
even though a data row follows. -/
theorem get_columns_spec_witness :
    SheetData.get_columns sheetBlank = Except.error ParseError.MissingHeaders :=
  (get_columns_spec sheetBlank).2.1.mpr ⟨by decide, by decide⟩

/-- C7: when no sheet fails header derivation, `generate` emits exactly one
statement per sheet with at least one data row — table name, derived columns and
coerced rows, in workbook sheet order — and fails with `NoData` exactly when that
collection is empty; and a header/empty-sheet error of any sheet (all sheets before
it succeeding) propagates, wrapped as a `Parse` error, aborting the whole run. -/
theorem generate_spec (wb : WorkbookData) :
    ((∀ s ∈ wb.sheets, ∃ c, SheetData.get_columns s = Except.ok c) →
      generate wb =
        (if (wb.sheets.filterMap claimStmt).isEmpty then Except.error GeneratorError.NoData
         else Except.ok (wb.sheets.filterMap claimStmt))) ∧
    (∀ pre s post e, wb.sheets = pre ++ s :: post →
      (∀ t ∈ pre, ∃ c, SheetData.get_columns t = Except.ok c) →
      SheetData.get_columns s = Except.error e →
      generate wb = Except.error (GeneratorError.Parse e)) := by
  constructor
  · intro hall
    simp only [generate, generateSheets_all_ok hall]
  · intro pre s post e hsplit hpre hs
    simp only [generate, hsplit, generateSheets_error_of_prefix pre s post e hpre hs]

/-- C7 witness: the spec's `people` workbook generates exactly its one statement. -/
theorem generate_spec_witness : generate wbPeople = Except.ok [stmtPeople] := by
  have hall : ∀ s ∈ wbPeople.sheets, ∃ c, SheetData.get_columns s = Except.ok c := by
    intro s hs
    have heq : s = sheetPeople := by simpa [wbPeople] using hs
    subst heq
    exact ⟨["id", "name"], rfl⟩
  have h := (generate_spec wbPeople).1 hall
  rw [h]
  rfl

/-- C8: `format_statement` renders exactly the spec's layout (backtick-quoted table
and columns, comma-space-joined column list, comma-joined parenthesised tuples
separated by comma-newline, terminated by a semicolon with no trailing separator);
in particular the `people` workbook renders to the exact expected text. -/
theorem format_statement_spec :
    (∀ stmt, format_statement stmt = specFormat stmt) ∧
    generate wbPeople = Except.ok [stmtPeople] ∧
    format_statement stmtPeople =
      "INSERT INTO `people` (`id`, `name`) VALUES\n(1,'Ann'),\n(2,'Bea');" := by
  refine ⟨fun stmt => ?_, rfl, by decide⟩
  simp [format_statement, specFormat, format_identifier]

/-- C9: for workbooks with rectangular grids, every statement `generate` builds has
rows whose element count equals the column count. -/
theorem statement_row_lengths (wb : WorkbookData)
    (hrect : ∀ s ∈ wb.sheets, ∀ r ∈ s.range, r.length = (s.range.headD []).length)
    (stmts : List SqlStatement) (hgen : generate wb = Except.ok stmts) :
    ∀ stmt ∈ stmts, ∀ row ∈ stmt.values, row.length = stmt.columns.length := by
  intro stmt hstmt row hrow
  cases hg : generateSheets wb.sheets with
  | error e => simp [generate, hg] at hgen
  | ok l =>
    simp only [generate, hg] at hgen
    by_cases hle : l.isEmpty = true
    · simp [hle] at hgen
    · simp only [hle, if_false, Bool.false_eq_true, Except.ok.injEq] at hgen
      subst hgen
      obtain ⟨sheet, hmem, cols, hc, hstmteq, hnz⟩ :=
        generateSheets_ok_mem _ _ hg stmt hstmt
      obtain ⟨r0, rest0, hrange, hcols, hcne⟩ := get_columns_ok_shape hc
      subst hstmteq
      obtain ⟨raw, hrawmem, hroweq⟩ := List.mem_map.mp hrow
      subst hroweq
      have hrawrange : raw ∈ sheet.range := List.mem_of_mem_drop hrawmem
      have hlen := hrect sheet hmem raw hrawrange
      rw [hrange] at hlen
      simp only [List.headD_cons] at hlen
      show (raw.map SqlValue.fromData).length = cols.length
      rw [List.length_map, hcols, List.length_map, hlen]

/-- C9 witness: the row-length invariant applied to the `people` workbook's
statement, at its first row. -/
theorem statement_row_lengths_witness :
    (stmtPeople.values.headD []).length = stmtPeople.columns.length :=
  statement_row_lengths wbPeople (by decide) [stmtPeople] rfl stmtPeople
    (List.mem_singleton.mpr rfl) [SqlValue.Integer 1, SqlValue.Text "Ann"] (by decide)

/-- C10: `get_columns` can never succeed with an empty column list (a zero-cell
first row vacuously passes the all-blank check and yields `MissingHeaders`), so the
builder's skip-on-empty-columns branch is unreachable; consequently every statement
in a successful `generate` result has non-empty columns and non-empty values. -/
theorem statements_nonempty :
    (∀ sd cols, SheetData.get_columns sd = Except.ok cols → cols ≠ []) ∧
    (∀ wb stmts, generate wb = Except.ok stmts →
      ∀ stmt ∈ stmts, stmt.columns ≠ [] ∧ stmt.values ≠ []) := by
  constructor
  · intro sd cols h
    obtain ⟨-, -, -, -, hne⟩ := get_columns_ok_shape h
    exact hne
  · intro wb stmts hgen stmt hstmt
    cases hg : generateSheets wb.sheets with
    | error e => simp [generate, hg] at hgen
    | ok l =>
      simp only [generate, hg] at hgen
      by_cases hle : l.isEmpty = true
      · simp [hle] at hgen
      · simp only [hle, if_false, Bool.false_eq_true, Except.ok.injEq] at hgen
        subst hgen
        obtain ⟨sheet, hmem, cols, hc, hstmteq, hnz⟩ :=
          generateSheets_ok_mem _ _ hg stmt hstmt
        obtain ⟨-, -, -, -, hcne⟩ := get_columns_ok_shape hc
        subst hstmteq
        exact ⟨hcne, hnz⟩

/-- C10 witness: the invariant applied to the `people` workbook's statement. -/
theorem statements_nonempty_witness :
    stmtPeople.columns ≠ [] ∧ stmtPeople.values ≠ [] :=
  statements_nonempty.2 wbPeople [stmtPeople] rfl stmtPeople (List.mem_singleton.mpr rfl)

end Xlsx2Sql
